import Mathlib

/-!
Verification of the BLE client coordination layer in
`src/packages/expo-bluetooth/src/Bluetooth.ts`.

The file shallowly embeds the module: pure computations become Lean
functions, the mutable handler registry and peripheral cache become an
explicit `BTState` threaded through operations, native-bridge calls are
recorded in a trace (`NCall`) and their results are supplied by an
oracle (`Bridge`), and thrown JS exceptions become `Except.error`.
Helper modules of the repository that are not part of the provided
sources (BluetoothConstants, BluetoothInvariant, BluetoothLocalState,
BluetoothEventHandler, ExpoBluetooth) are modelled from the spec; each
such definition says so in its doc comment.
-/

namespace ExpoBT

/-- Modelled from the spec: the `DELIMINATOR` constant of
`BluetoothConstants.ts` (not among the provided sources); the spec only
requires a fixed delimiter character excluded from UUID text. -/
def DELIMINATOR : Char := '|'

/-- JS `String.prototype.split` with a single-character separator,
structurally recursive over the characters; the result is always
nonempty, and splitting the empty string gives one empty segment, as in
JS. -/
def jsSplitChars (delim : Char) : List Char → List (List Char)
  | [] => [[]]
  | c :: cs =>
    match jsSplitChars delim cs with
    | [] => [[]]
    | r :: rs => if c = delim then [] :: r :: rs else (c :: r) :: rs

/-- The embedding of `id.split(DELIMINATOR)` used by the discovery
recursion. -/
def splitOnDeliminator (s : String) : List String :=
  (jsSplitChars DELIMINATOR s.toList).map (fun cs => String.mk cs)

/-- The literal event kind of the bulk-update branch; the string
`UPDATE` appears verbatim in `Bluetooth.ts`. -/
def EVENT_UPDATE : String := "UPDATE"

/-- Modelled from the spec: `EVENTS.CENTRAL_DID_DISCOVER_PERIPHERAL` from
`BluetoothConstants.ts` (not among the provided sources); only its
distinctness from the other event kinds matters. -/
def CENTRAL_DID_DISCOVER_PERIPHERAL : String := "central.didDiscoverPeripheral"

/-- Modelled from the spec: `EVENTS.CENTRAL_DID_DISCONNECT_PERIPHERAL`
from `BluetoothConstants.ts` (not among the provided sources). -/
def CENTRAL_DID_DISCONNECT_PERIPHERAL : String := "central.didDisconnectPeripheral"

/-- Modelled from the spec: `EVENTS.CENTRAL_DID_UPDATE_STATE` from
`BluetoothConstants.ts` (not among the provided sources). -/
def CENTRAL_DID_UPDATE_STATE : String := "central.didUpdateState"

/-- Modelled from the spec: `EVENTS.CENTRAL_DID_RETRIEVE_PERIPHERALS`
from `BluetoothConstants.ts` (not among the provided sources). -/
def CENTRAL_DID_RETRIEVE_PERIPHERALS : String := "central.didRetrievePeripherals"

/-- Modelled from the spec:
`EVENTS.CENTRAL_DID_RETRIEVE_CONNECTED_PERIPHERALS` from
`BluetoothConstants.ts` (not among the provided sources). -/
def CENTRAL_DID_RETRIEVE_CONNECTED_PERIPHERALS : String := "central.didRetrieveConnectedPeripherals"

/-- Modelled from the spec: `EVENTS.ENABLE_BLUETOOTH` from
`BluetoothConstants.ts` (not among the provided sources). -/
def ENABLE_BLUETOOTH : String := "central.enableBluetooth"

/-- The key used by `observeUpdates` in `Bluetooth.ts` (the literal
string `everything`); `firePeripheralObservers` notifies the handlers
registered under it. -/
def EVERYTHING_KEY : String := "everything"

/-! ## Data model (Bluetooth.types.ts records, plain data) -/

structure NativeDescriptor where
  id : String
  value : Option String
deriving Repr, DecidableEq

structure NativeCharacteristic where
  id : String
  value : Option String
  descriptors : List NativeDescriptor
deriving Repr, DecidableEq

structure NativeService where
  id : String
  isPrimary : Bool
  characteristics : List NativeCharacteristic
deriving Repr, DecidableEq

structure NativePeripheral where
  id : String
  state : String
  services : List NativeService
deriving Repr, DecidableEq

structure CentralRec where
  state : String
deriving Repr, DecidableEq

/-! ## Modelled invariants (BluetoothInvariant.ts, not among the sources) -/

def isHexDigit (c : Char) : Bool :=
  (c.val ≥ 48 && c.val ≤ 57) || (c.val ≥ 97 && c.val ≤ 102) || (c.val ≥ 65 && c.val ≤ 70)

/-- Modelled from the spec: the UUID well-formedness predicate behind
`invariantUUID` of `BluetoothInvariant.ts` (not among the provided
sources); the spec requires every address component to be a
syntactically valid UUID, taken here as the canonical 8-4-4-4-12 hex
form. -/
def isValidUUID (s : String) : Bool :=
  let cs := s.toList
  cs.length = 36 &&
    (List.range 36).all (fun i =>
      if i = 8 || i = 13 || i = 18 || i = 23 then cs.getD i ' ' = '-'
      else isHexDigit (cs.getD i ' '))

/-! ## TopologyCache (BluetoothLocalState.ts, not among the sources) -/

def mergeDescriptorList (old new : List NativeDescriptor) : List NativeDescriptor :=
  (old.map (fun o => ((new.find? (fun n => n.id = o.id)).getD o))) ++
    new.filter (fun n => !(old.any (fun o => o.id = n.id)))

def mergeCharacteristic (old new : NativeCharacteristic) : NativeCharacteristic :=
  { new with descriptors := mergeDescriptorList old.descriptors new.descriptors }

def mergeCharacteristicList (old new : List NativeCharacteristic) : List NativeCharacteristic :=
  (old.map (fun o =>
    match new.find? (fun n => n.id = o.id) with
    | some n => mergeCharacteristic o n
    | none => o)) ++
    new.filter (fun n => !(old.any (fun o => o.id = n.id)))

def mergeService (old new : NativeService) : NativeService :=
  { new with characteristics := mergeCharacteristicList old.characteristics new.characteristics }

def mergeServiceList (old new : List NativeService) : List NativeService :=
  (old.map (fun o =>
    match new.find? (fun n => n.id = o.id) with
    | some n => mergeService o n
    | none => o)) ++
    new.filter (fun n => !(old.any (fun o => o.id = n.id)))

def mergePeripheral (old new : NativePeripheral) : NativePeripheral :=
  { new with services := mergeServiceList old.services new.services }

/-- Modelled from the spec: `updateStateWithPeripheral` of
`BluetoothLocalState.ts` (not among the provided sources); the spec's
`mergePeripheral` upserts by identifier, overwriting scalar fields and
recursively merging the child maps. -/
def updateStateWithPeripheral (ps : List NativePeripheral) (p : NativePeripheral) :
    List NativePeripheral :=
  if ps.any (fun q => q.id = p.id) then
    ps.map (fun q => if q.id = p.id then mergePeripheral q p else q)
  else
    ps ++ [p]

/-! ## HandlerRegistry and coordinator state
(BluetoothEventHandler.ts, not among the sources) -/

/-- Coordinator state: the handler registry of `BluetoothEventHandler`
(handlers are opaque, identified by `Nat` tags in registration order)
together with the peripheral map of `BluetoothLocalState`. -/
structure BTState where
  handlers : List (String × Nat)
  nextHandlerId : Nat
  peripherals : List NativePeripheral
deriving Repr, DecidableEq

def BTState.empty : BTState := ⟨[], 0, []⟩

/-- Modelled from the spec: `addHandlerForKey` of
`BluetoothEventHandler.ts` (not among the provided sources); appends a
handler under the key, without dedup, returning the subscription tag. -/
def addHandlerForKey (key : String) (st : BTState) : BTState × Nat :=
  ({ st with
      handlers := st.handlers ++ [(key, st.nextHandlerId)]
      nextHandlerId := st.nextHandlerId + 1 },
    st.nextHandlerId)

/-- Modelled from the spec: `getHandlersForKey` of
`BluetoothEventHandler.ts` (not among the provided sources); the
handlers registered under a key, in insertion order. -/
def getHandlersForKey (st : BTState) (key : String) : List Nat :=
  (st.handlers.filter (fun h => h.1 = key)).map (fun h => h.2)

/-- Modelled from the spec: `resetHandlersForKey` of
`BluetoothEventHandler.ts` (not among the provided sources); clears
every handler registered under the given key. -/
def resetHandlersForKey (key : String) (st : BTState) : BTState :=
  { st with handlers := st.handlers.filter (fun h => ¬(h.1 = key)) }

/-- Modelled from the spec: `Subscription.remove` of the registry (not
among the provided sources); removes exactly the named handler. -/
def removeSubscription (tag : Nat) (st : BTState) : BTState :=
  { st with handlers := st.handlers.filter (fun h => ¬(h.2 = tag)) }

/-- A handler invocation recorded during dispatch: the handler's tag and
the payload it was invoked with. -/
inductive Payload where
  | peripheral (p : Option NativePeripheral)
  | centralState (s : String)
  | central (c : Option CentralRec)
  | topology (ps : List NativePeripheral)
deriving Repr, DecidableEq

/-- Modelled from the spec: `fireMultiEventHandlers` of
`BluetoothEventHandler.ts` (not among the provided sources); invokes
every handler registered under the event key, in order. -/
def fireMultiEventHandlers (st : BTState) (key : String) (p : Payload) : List (Nat × Payload) :=
  (getHandlersForKey st key).map (fun h => (h, p))

/-- Modelled from the spec: `firePeripheralObservers` of
`BluetoothEventHandler.ts` (not among the provided sources); notifies
the topology observers (the handlers registered by `observeUpdates`
under the `everything` key) with the current peripheral map. -/
def firePeripheralObservers (st : BTState) : List (Nat × Payload) :=
  (getHandlersForKey st EVERYTHING_KEY).map (fun h => (h, Payload.topology st.peripherals))

/-! ## The push-channel entry point (the addListener callback,
Bluetooth.ts lines 494-534) -/

/-- The `data` record of a push-channel event (`NativeEventData`),
restricted to the fields the listener destructures and uses. -/
structure NativeEventData where
  peripheral : Option NativePeripheral := none
  peripherals : Option (List NativePeripheral) := none
  central : Option CentralRec := none
  error : Option String := none
deriving Repr, DecidableEq

/-- The `addListener` callback of `Bluetooth.ts` (lines 494-534): the
single entry point for push-channel events. Returns the updated state
and the list of handler invocations, or an error for a missing central
or an unhandled event kind. -/
def onNativeEvent (st : BTState) (event : String) (data : NativeEventData) :
    Except String (BTState × List (Nat × Payload)) :=
  if event = EVENT_UPDATE then
    let st1 : BTState := { st with peripherals := [] }
    let st2 : BTState :=
      match data.peripherals with
      | some ps => ps.foldl (fun s p => { s with peripherals := updateStateWithPeripheral s.peripherals p }) st1
      | none => st1
    .ok (st2, firePeripheralObservers st2)
  else if event = CENTRAL_DID_DISCONNECT_PERIPHERAL || event = CENTRAL_DID_DISCOVER_PERIPHERAL then
    .ok (st, fireMultiEventHandlers st event (Payload.peripheral data.peripheral) ++
      firePeripheralObservers st)
  else if event = CENTRAL_DID_UPDATE_STATE then
    match data.central with
    | none => .error ("EXBluetooth: Central not defined while processing: " ++ event)
    | some c => .ok (st, (getHandlersForKey st event).map (fun h => (h, Payload.centralState c.state)))
  else if event = CENTRAL_DID_RETRIEVE_CONNECTED_PERIPHERALS ||
      event = CENTRAL_DID_RETRIEVE_PERIPHERALS then
    .ok (st, [])
  else if event = ENABLE_BLUETOOTH then
    .ok (st, fireMultiEventHandlers st event (Payload.central data.central))
  else
    .error ("EXBluetooth: Unhandled event: " ++ event)

/-! ## The native bridge (ExpoBluetooth native module, opaque to the core) -/

/-- A native call issued through `ExpoBluetooth`, recorded in a trace. -/
inductive NCall where
  | startScanning (uuids : List String)
  | stopScanning
  | connectPeripheral (id : String)
  | disconnectPeripheral (id : String)
  | readRSSI (id : String)
  | readCharacteristic (peripheralUUID serviceUUID characteristicUUID : String)
  | writeCharacteristic (peripheralUUID serviceUUID characteristicUUID : String)
  | readDescriptor (peripheralUUID serviceUUID characteristicUUID descriptorUUID : String)
  | discoverServices (id : String)
  | discoverCharacteristics (id : String)
  | discoverDescriptors (id : String)
deriving Repr, DecidableEq

/-- Modelled from the spec: the result oracle for the `ExpoBluetooth`
native module (not among the provided sources); each field gives the
eventual result of the corresponding native operation. -/
structure Bridge where
  discoverServicesResult : String → Except String NativePeripheral
  discoverCharacteristicsResult : String → Except String NativeService
  discoverDescriptorsResult : String → Except String NativeCharacteristic
  disconnectResult : String → Except String Unit
  readRSSIResult : String → Except String Int
  readCharacteristicResult : String → String → String → Except String NativeCharacteristic
  writeCharacteristicResult : String → String → String → Except String NativeCharacteristic
  readDescriptorResult : String → String → String → String → Except String NativeDescriptor

/-- A bridge whose every operation fails; used for concrete witnesses. -/
def failBridge : Bridge where
  discoverServicesResult := fun _ => .error "unreachable"
  discoverCharacteristicsResult := fun _ => .error "unreachable"
  discoverDescriptorsResult := fun _ => .error "unreachable"
  disconnectResult := fun _ => .ok ()
  readRSSIResult := fun _ => .error "unreachable"
  readCharacteristicResult := fun _ _ _ => .error "unreachable"
  writeCharacteristicResult := fun _ _ _ => .error "unreachable"
  readDescriptorResult := fun _ _ _ _ => .error "unreachable"

/-- Modelled from the spec: the failure message raised by
`invariantAvailability` of `BluetoothInvariant.ts` (not among the
provided sources) when the capability is unsupported. -/
def unavailableMessage (op : String) : String :=
  "UnavailableCapability: " ++ op

/-- Modelled from the spec: the failure message raised by
`invariantUUID` of `BluetoothInvariant.ts` (not among the provided
sources) on a malformed UUID. -/
def malformedUUIDMessage (uuid : String) : String :=
  "MalformedUUID: " ++ uuid

/-! ## Scan operations (Bluetooth.ts lines 89-119) -/

/-- The embedding of `[...new Set(serviceUUIDsToQuery)]` in `startScan`:
JS `Set` insertion iterates the array keeping first occurrences. -/
def jsSetDedup (l : List String) : List String :=
  l.foldl (fun acc x => if x ∈ acc then acc else acc ++ [x]) []

/-- The subsequence of first occurrences, written the way the spec states
it (each element of the input exactly once, in first-occurrence order);
compared against `jsSetDedup` for the de-duplication claim. -/
def firstOccurrences : List String → List String
  | [] => []
  | x :: xs => x :: firstOccurrences (xs.filter (fun y => ¬(y = x)))
termination_by l => l.length
decreasing_by
  simp only [List.length_cons]
  exact Nat.lt_succ_of_le (List.length_filter_le _ _)

/-- `startScan` of `Bluetooth.ts` (lines 89-112): checks availability,
issues the native start-scan with the de-duplicated filter, registers
the discovery handler, and returns the subscription tag used by the
cancel closure. -/
def startScan (avail : String → Bool) (serviceUUIDsToQuery : Option (List String))
    (st : BTState) : BTState × List NCall × Except String Nat :=
  if ¬(avail "startScanningAsync" = true) then
    (st, [], .error (unavailableMessage "startScanningAsync"))
  else
    let filter := jsSetDedup (serviceUUIDsToQuery.getD [])
    let reg := addHandlerForKey CENTRAL_DID_DISCOVER_PERIPHERAL st
    (reg.1, [NCall.startScanning filter], .ok reg.2)

/-- `stopScanAsync` of `Bluetooth.ts` (lines 114-119): checks
availability, removes every handler under the discovery key, then
issues the native stop-scan. -/
def stopScanAsync (avail : String → Bool) (st : BTState) :
    BTState × List NCall × Except String Unit :=
  if ¬(avail "stopScanningAsync" = true) then
    (st, [], .error (unavailableMessage "stopScanningAsync"))
  else
    (resetHandlersForKey CENTRAL_DID_DISCOVER_PERIPHERAL st, [NCall.stopScanning], .ok ())

/-- The cancel closure returned by `startScan` (lines 108-111): removes
its own subscription, then runs `stopScanAsync`. -/
def cancelScanClosure (avail : String → Bool) (tag : Nat) (st : BTState) :
    BTState × List NCall × Except String Unit :=
  stopScanAsync avail (removeSubscription tag st)

/-! ## Validated pass-throughs (Bluetooth.ts lines 178-196) -/

/-- `disconnectAsync` of `Bluetooth.ts` (lines 178-182): availability
check, UUID check, then the native disconnect. -/
def disconnectAsync (br : Bridge) (avail : String → Bool) (peripheralUUID : String) :
    List NCall × Except String Unit :=
  if ¬(avail "disconnectPeripheralAsync" = true) then
    ([], .error (unavailableMessage "disconnectPeripheralAsync"))
  else if ¬(isValidUUID peripheralUUID = true) then
    ([], .error (malformedUUIDMessage peripheralUUID))
  else
    ([NCall.disconnectPeripheral peripheralUUID], br.disconnectResult peripheralUUID)

/-- `readRSSIAsync` of `Bluetooth.ts` (lines 292-296): availability
check, UUID check, then the native RSSI read. -/
def readRSSIAsync (br : Bridge) (avail : String → Bool) (peripheralUUID : String) :
    List NCall × Except String Int :=
  if ¬(avail "readRSSIAsync" = true) then
    ([], .error (unavailableMessage "readRSSIAsync"))
  else if ¬(isValidUUID peripheralUUID = true) then
    ([], .error (malformedUUIDMessage peripheralUUID))
  else
    ([NCall.readRSSI peripheralUUID], br.readRSSIResult peripheralUUID)

/-- The synchronous prefix of `connectAsync` (lines 133-150): the
availability check, the UUID check, and the optional registration of
the `onDisconnect` handler — everything that runs before the native
connect is issued. On error the state is returned unchanged. -/
def connectAsyncValidate (avail : String → Bool) (peripheralUUID : String)
    (hasOnDisconnect : Bool) (st : BTState) : BTState × List NCall × Except String Unit :=
  if ¬(avail "connectPeripheralAsync" = true) then
    (st, [], .error (unavailableMessage "connectPeripheralAsync"))
  else if ¬(isValidUUID peripheralUUID = true) then
    (st, [], .error (malformedUUIDMessage peripheralUUID))
  else
    let st1 := if hasOnDisconnect then (addHandlerForKey CENTRAL_DID_DISCONNECT_PERIPHERAL st).1 else st
    (st1, [], .ok ())

/-! ## Read/write operations (Bluetooth.ts lines 185-296) -/

/-- `readCharacteristicAsync` of `Bluetooth.ts` (lines 241-254): issues
the native read directly and returns `characteristic.value`. The
source contains no `invariantAvailability` call, so the `avail`
argument is deliberately unused — as in the source. -/
def readCharacteristicAsync (br : Bridge) (_avail : String → Bool)
    (peripheralUUID serviceUUID characteristicUUID : String) :
    List NCall × Except String (Option String) :=
  ([NCall.readCharacteristic peripheralUUID serviceUUID characteristicUUID],
    (br.readCharacteristicResult peripheralUUID serviceUUID characteristicUUID).map
      (fun c => c.value))

/-- `writeCharacteristicAsync` of `Bluetooth.ts` (lines 257-271): issues
the native write directly and returns the characteristic. No
`invariantAvailability` call appears in the source. -/
def writeCharacteristicAsync (br : Bridge) (_avail : String → Bool)
    (peripheralUUID serviceUUID characteristicUUID : String) :
    List NCall × Except String NativeCharacteristic :=
  ([NCall.writeCharacteristic peripheralUUID serviceUUID characteristicUUID],
    br.writeCharacteristicResult peripheralUUID serviceUUID characteristicUUID)

/-- `readDescriptorAsync` of `Bluetooth.ts` (lines 185-200): issues the
native read directly and returns `descriptor.value`. No
`invariantAvailability` call appears in the source. -/
def readDescriptorAsync (br : Bridge) (_avail : String → Bool)
    (peripheralUUID serviceUUID characteristicUUID descriptorUUID : String) :
    List NCall × Except String (Option String) :=
  ([NCall.readDescriptor peripheralUUID serviceUUID characteristicUUID descriptorUUID],
    (br.readDescriptorResult peripheralUUID serviceUUID characteristicUUID descriptorUUID).map
      (fun d => d.value))

/-! ## Discovery (Bluetooth.ts lines 314-435) -/

/-- `discoverServicesForPeripheralAsync` of `Bluetooth.ts` (lines
314-326): availability check, then the native service discovery for the
peripheral named by the transaction id. `Transaction.getUUIDs` (not
among the provided sources) is, per the spec, stateless address algebra
and is absorbed into passing the id through to the oracle. -/
def discoverServicesForPeripheralAsync (br : Bridge) (avail : String → Bool) (id : String) :
    List NCall × Except String NativePeripheral :=
  if ¬(avail "discoverServicesForPeripheralAsync" = true) then
    ([], .error (unavailableMessage "discoverServicesForPeripheralAsync"))
  else
    ([NCall.discoverServices id], br.discoverServicesResult id)

/-- `discoverCharacteristicsForServiceAsync` of `Bluetooth.ts` (lines
340-352): availability check, then the native characteristic discovery
for the service named by the transaction id. -/
def discoverCharacteristicsForServiceAsync (br : Bridge) (avail : String → Bool) (id : String) :
    List NCall × Except String NativeService :=
  if ¬(avail "discoverCharacteristicsForServiceAsync" = true) then
    ([], .error (unavailableMessage "discoverCharacteristicsForServiceAsync"))
  else
    ([NCall.discoverCharacteristics id], br.discoverCharacteristicsResult id)

/-- `discoverDescriptorsForCharacteristicAsync` of `Bluetooth.ts` (lines
354-367): availability check, then the native descriptor discovery for
the characteristic named by the transaction id. -/
def discoverDescriptorsForCharacteristicAsync (br : Bridge) (avail : String → Bool) (id : String) :
    List NCall × Except String NativeCharacteristic :=
  if ¬(avail "discoverDescriptorsForCharacteristicAsync" = true) then
    ([], .error (unavailableMessage "discoverDescriptorsForCharacteristicAsync"))
  else
    ([NCall.discoverDescriptors id], br.discoverDescriptorsResult id)

/-- The value a recursive discovery call resolves with: the descriptor
list at depth 3, or the array of child results at depths 1 and 2. -/
inductive LoadResult where
  | descriptors (ds : List NativeDescriptor)
  | children (rs : List LoadResult)
deriving Repr

/-- `Promise.all` over already-started child computations: every child's
native calls are issued, and the aggregate fails with the first child
failure (fail-fast) or resolves with the list of child values. -/
def promiseAll (rs : List (List NCall × Except String LoadResult)) :
    List NCall × Except String (List LoadResult) :=
  ((rs.map (fun r => r.1)).flatten,
    match rs.findSome? (fun r => match r.2 with | .error e => some e | .ok _ => none) with
    | some e => .error e
    | none => .ok (rs.filterMap (fun r => r.2.toOption)))

/-- `_loadChildrenRecursivelyAsync` of `Bluetooth.ts` (lines 400-435):
splits the id on the delimiter and dispatches on the component count;
depth 4 and unknown depths throw before any native call, depth 3 runs
descriptor discovery and returns the descriptors, depths 2 and 1 run
the discovery for their level and recurse into every returned child in
parallel. The `fuel` argument only bounds the recursion depth of the
embedding (the source recursion is driven by the native responses). -/
def _loadChildrenRecursivelyAsync (br : Bridge) (avail : String → Bool) :
    Nat → String → List NCall × Except String LoadResult
  | 0, _ => ([], .error "fuel exhausted")
  | fuel + 1, id =>
    let components := splitOnDeliminator id
    if components.length = 4 then
      ([], .error "Descriptors have no children")
    else if components.length = 3 then
      match discoverDescriptorsForCharacteristicAsync br avail id with
      | (t, .error e) => (t, .error e)
      | (t, .ok ch) => (t, .ok (LoadResult.descriptors ch.descriptors))
    else if components.length = 2 then
      match discoverCharacteristicsForServiceAsync br avail id with
      | (t, .error e) => (t, .error e)
      | (t, .ok sv) =>
        let sub := promiseAll (sv.characteristics.map
          (fun ch => _loadChildrenRecursivelyAsync br avail fuel ch.id))
        (t ++ sub.1, sub.2.map LoadResult.children)
    else if components.length = 1 then
      match discoverServicesForPeripheralAsync br avail id with
      | (t, .error e) => (t, .error e)
      | (t, .ok p) =>
        let sub := promiseAll (p.services.map
          (fun sv => _loadChildrenRecursivelyAsync br avail fuel sv.id))
        (t ++ sub.1, sub.2.map LoadResult.children)
    else
      ([], .error ("Unknown ID " ++ id))

/-! ## The connect promise race (Bluetooth.ts lines 149-175) -/

/-- How the connect promise settled: resolved with the peripheral,
rejected by the timeout `BluetoothError` (code `timeout`), or rejected
with the native error. -/
inductive SettledVal where
  | resolved (p : NativePeripheral)
  | rejectedTimeout (message : String)
  | rejectedNative (e : String)
deriving Repr, DecidableEq

/-- The message of the timeout `BluetoothError` built at lines 156-161. -/
def timeoutMessage (peripheralUUID : String) (ms : Nat) : String :=
  "Failed to connect to peripheral: " ++ peripheralUUID ++ " in under: " ++ toString ms ++ "ms"

/-- The observable state of one `connectAsync` promise race: whether the
`setTimeout` timer is still pending, how the promise settled (a settled
promise ignores later `resolve`/`reject` calls), and the native calls
issued so far. -/
structure ConnectRun where
  timerPending : Bool
  settled : Option SettledVal
  nativeCalls : List NCall
deriving Repr, DecidableEq

/-- Settling a promise: the first `resolve`/`reject` wins, later calls
are no-ops. -/
def ConnectRun.settle (st : ConnectRun) (v : SettledVal) : ConnectRun :=
  match st.settled with
  | some _ => st
  | none => { st with settled := some v }

/-- The state right after the promise executor started with a timeout
set (lines 151-164): the timer is pending and the native connect has
been issued. -/
def connectRunInit (peripheralUUID : String) : ConnectRun :=
  ⟨true, none, [NCall.connectPeripheral peripheralUUID]⟩

/-- The asynchronous events that can reach a pending connect race:
expiry of the `setTimeout` timer, or settlement of the native connect
call. -/
inductive ConnectEvent where
  | timerFire
  | nativeResolve (p : NativePeripheral)
  | nativeReject (e : String)
deriving Repr, DecidableEq

/-- One asynchronous step of `connectAsync` (lines 151-175). Timer
expiry (guarded on the timer still pending - `clearTimeout` or an
earlier expiry makes it impossible) runs the `setTimeout` callback:
`disconnectAsync(peripheralUUID)` fire-and-forget, then
`reject(BluetoothError timeout)`. Native settlement runs the
`try`/`catch`/`finally` tail: `reject` on failure, `clearTimeout` in
all cases, then `resolve(result)` (a no-op if already settled). -/
def connectStep (br : Bridge) (avail : String → Bool) (peripheralUUID : String) (ms : Nat)
    (st : ConnectRun) : ConnectEvent → ConnectRun
  | .timerFire =>
    if st.timerPending then
      let d := disconnectAsync br avail peripheralUUID
      let st1 : ConnectRun :=
        { st with timerPending := false, nativeCalls := st.nativeCalls ++ d.1 }
      st1.settle (SettledVal.rejectedTimeout (timeoutMessage peripheralUUID ms))
    else st
  | .nativeResolve p =>
    let st1 : ConnectRun := { st with timerPending := false }
    st1.settle (SettledVal.resolved p)
  | .nativeReject e =>
    let st1 := st.settle (SettledVal.rejectedNative e)
    { st1 with timerPending := false }

/-- A whole run of the connect race: the asynchronous events applied in
order to the initial state. -/
def connectRun (br : Bridge) (avail : String → Bool) (peripheralUUID : String) (ms : Nat)
    (evs : List ConnectEvent) : ConnectRun :=
  evs.foldl (connectStep br avail peripheralUUID ms) (connectRunInit peripheralUUID)

/-! ## Observers and concrete data used in statements -/

/-- The event kinds the `addListener` callback recognizes: the `UPDATE`
literal and the six `EVENTS` constants of its `switch`. -/
def recognizedEventKinds : List String :=
  [EVENT_UPDATE, CENTRAL_DID_DISCONNECT_PERIPHERAL, CENTRAL_DID_DISCOVER_PERIPHERAL,
    CENTRAL_DID_UPDATE_STATE, CENTRAL_DID_RETRIEVE_CONNECTED_PERIPHERALS,
    CENTRAL_DID_RETRIEVE_PERIPHERALS, ENABLE_BLUETOOTH]

/-- Retrieval from the peripheral map by identifier, the embedding of
`getPeripherals()[peripheralId]`. -/
def lookupPeripheral (ps : List NativePeripheral) (pid : String) : Option NativePeripheral :=
  ps.find? (fun p => p.id = pid)

/-- A concrete peripheral record used in counterexamples and witnesses. -/
def pDiscovered : NativePeripheral := ⟨"peripheral-one", "disconnected", []⟩

/-- A concrete peripheral record cached before a bulk update. -/
def pStale : NativePeripheral := ⟨"stale-peripheral", "connected", []⟩

/-- A concrete peripheral record carried by a bulk update. -/
def pFresh : NativePeripheral := ⟨"fresh-peripheral", "disconnected", []⟩

/-! # Theorems -/

/-! ## C1 - depth-driven discovery dispatch -/

/-- C1: depth-driven discovery dispatch. `_loadChildrenRecursivelyAsync`
dispatches solely on the delimiter-separated component count of the id:
4 components fail (descriptors have no children) with no native call;
3 components request descriptor discovery and return the descriptors
with no recursion; 2 components request characteristic discovery and
recurse into each returned characteristic; 1 component requests service
discovery and recurses into each returned service; any other count
fails with no native call. -/
theorem loadChildren_depth_dispatch (br : Bridge) (avail : String → Bool) (fuel : Nat)
    (id : String) :
    ((splitOnDeliminator id).length = 4 →
      _loadChildrenRecursivelyAsync br avail (fuel + 1) id =
        ([], .error "Descriptors have no children")) ∧
    ((splitOnDeliminator id).length = 3 →
      avail "discoverDescriptorsForCharacteristicAsync" = true →
      _loadChildrenRecursivelyAsync br avail (fuel + 1) id =
        ([NCall.discoverDescriptors id],
          (br.discoverDescriptorsResult id).map
            (fun ch => LoadResult.descriptors ch.descriptors))) ∧
    ((splitOnDeliminator id).length = 2 →
      avail "discoverCharacteristicsForServiceAsync" = true →
      ∀ sv, br.discoverCharacteristicsResult id = .ok sv →
        _loadChildrenRecursivelyAsync br avail (fuel + 1) id =
          ([NCall.discoverCharacteristics id] ++
              (promiseAll (sv.characteristics.map
                (fun ch => _loadChildrenRecursivelyAsync br avail fuel ch.id))).1,
            (promiseAll (sv.characteristics.map
              (fun ch => _loadChildrenRecursivelyAsync br avail fuel ch.id))).2.map
              LoadResult.children)) ∧
    ((splitOnDeliminator id).length = 1 →
      avail "discoverServicesForPeripheralAsync" = true →
      ∀ p, br.discoverServicesResult id = .ok p →
        _loadChildrenRecursivelyAsync br avail (fuel + 1) id =
          ([NCall.discoverServices id] ++
              (promiseAll (p.services.map
                (fun sv => _loadChildrenRecursivelyAsync br avail fuel sv.id))).1,
            (promiseAll (p.services.map
              (fun sv => _loadChildrenRecursivelyAsync br avail fuel sv.id))).2.map
              LoadResult.children)) ∧
    (¬((splitOnDeliminator id).length = 4) → ¬((splitOnDeliminator id).length = 3) →
      ¬((splitOnDeliminator id).length = 2) → ¬((splitOnDeliminator id).length = 1) →
      _loadChildrenRecursivelyAsync br avail (fuel + 1) id =
        ([], .error ("Unknown ID " ++ id))) := by
  refine ⟨?_, ?_, ?_, ?_, ?_⟩
  · intro h4
    simp only [_loadChildrenRecursivelyAsync]
    rw [if_pos h4]
  · intro h3 ha
    simp only [_loadChildrenRecursivelyAsync]
    rw [if_neg (by omega), if_pos h3]
    simp only [discoverDescriptorsForCharacteristicAsync, ha]
    cases hr : br.discoverDescriptorsResult id <;> simp [hr, Except.map]
  · intro h2 ha sv hsv
    simp only [_loadChildrenRecursivelyAsync]
    rw [if_neg (by omega), if_neg (by omega), if_pos h2]
    simp only [discoverCharacteristicsForServiceAsync, ha]
    simp [hsv]
  · intro h1 ha p hp
    simp only [_loadChildrenRecursivelyAsync]
    rw [if_neg (by omega), if_neg (by omega), if_neg (by omega), if_pos h1]
    simp only [discoverServicesForPeripheralAsync, ha]
    simp [hp]
  · intro h4 h3 h2 h1
    simp only [_loadChildrenRecursivelyAsync]
    rw [if_neg h4, if_neg h3, if_neg h2, if_neg h1]

/-- Witness for C1: a 4-component id fails with no native call. -/
theorem loadChildren_depth_dispatch_witness :
    (splitOnDeliminator "aa|bb|cc|dd").length = 4 ∧
    _loadChildrenRecursivelyAsync failBridge (fun _ => true) 1 "aa|bb|cc|dd" =
      ([], .error "Descriptors have no children") :=
  ⟨by decide,
    (loadChildren_depth_dispatch failBridge (fun _ => true) 0 "aa|bb|cc|dd").1 (by decide)⟩

/-! ## C2 - UPDATE events wholesale-replace the cache -/

theorem mergePeripheral_id (old new : NativePeripheral) :
    (mergePeripheral old new).id = new.id := rfl

theorem updateState_ids (ps : List NativePeripheral) (p : NativePeripheral) (pid : String) :
    (pid ∈ (updateStateWithPeripheral ps p).map (fun q => q.id)) ↔
      (pid ∈ ps.map (fun q => q.id) ∨ pid = p.id) := by
  unfold updateStateWithPeripheral
  by_cases hmem : ps.any (fun q => q.id = p.id) = true
  · rw [if_pos hmem]
    have hids : (ps.map (fun q => if q.id = p.id then mergePeripheral q p else q)).map
        (fun q => q.id) = ps.map (fun q => q.id) := by
      rw [List.map_map]
      apply List.map_congr_left
      intro q _
      by_cases hq : q.id = p.id
      · simp [hq, mergePeripheral_id]
      · simp [hq]
    rw [hids]
    simp only [List.any_eq_true, decide_eq_true_eq] at hmem
    obtain ⟨q, hqmem, hq⟩ := hmem
    constructor
    · exact Or.inl
    · rintro (h | h)
      · exact h
      · exact List.mem_map.mpr ⟨q, hqmem, by rw [hq, h]⟩
  · rw [if_neg hmem]
    simp

theorem foldl_update_mem (ps : List NativePeripheral) (acc : List NativePeripheral)
    (pid : String) :
    (pid ∈ (ps.foldl updateStateWithPeripheral acc).map (fun q => q.id)) ↔
      (pid ∈ acc.map (fun q => q.id) ∨ pid ∈ ps.map (fun q => q.id)) := by
  induction ps generalizing acc with
  | nil => simp
  | cons p ps ih =>
    simp only [List.foldl_cons, ih, updateState_ids, List.map_cons, List.mem_cons]
    tauto

theorem foldl_update_btstate (ps : List NativePeripheral) (s : BTState) :
    (ps.foldl (fun s p => { s with peripherals := updateStateWithPeripheral s.peripherals p }) s) =
      { s with peripherals := ps.foldl updateStateWithPeripheral s.peripherals } := by
  induction ps generalizing s with
  | nil => rfl
  | cons p ps ih => simp [ih]

theorem lookup_isSome (ps : List NativePeripheral) (pid : String) :
    (lookupPeripheral ps pid).isSome ↔ pid ∈ ps.map (fun q => q.id) := by
  simp only [lookupPeripheral, List.find?_isSome, List.mem_map, decide_eq_true_eq]

/-- C2: a push event of kind `UPDATE` carrying peripherals `ps` replaces
the whole mirror: afterwards an id is retrievable exactly when it is
the id of a member of `ps` (so every previously cached id absent from
`ps` is gone), and the topology observers are notified; an `UPDATE`
carrying no peripherals empties the mirror. -/
theorem update_event_replaces_cache (st : BTState) (data : NativeEventData) :
    (∀ ps, data.peripherals = some ps →
      onNativeEvent st EVENT_UPDATE data =
        .ok ({ st with peripherals := ps.foldl updateStateWithPeripheral [] },
          firePeripheralObservers
            { st with peripherals := ps.foldl updateStateWithPeripheral [] }) ∧
      (∀ pid, (lookupPeripheral (ps.foldl updateStateWithPeripheral []) pid).isSome ↔
        pid ∈ ps.map (fun p => p.id))) ∧
    (data.peripherals = none →
      onNativeEvent st EVENT_UPDATE data =
        .ok ({ st with peripherals := [] },
          firePeripheralObservers { st with peripherals := [] }) ∧
      ∀ pid, lookupPeripheral (([] : List NativePeripheral)) pid = none) := by
  constructor
  · intro ps hps
    constructor
    · simp [onNativeEvent, hps, foldl_update_btstate]
    · intro pid
      rw [lookup_isSome, foldl_update_mem]
      simp
  · intro hps
    constructor
    · simp [onNativeEvent, hps]
    · intro pid; rfl

/-- Witness for C2: an `UPDATE` carrying only `pFresh` leaves a mirror
from which the previously cached `pStale` is gone, and notifies the
registered topology observer. -/
theorem update_event_replaces_cache_witness :
    onNativeEvent ⟨[(EVERYTHING_KEY, 0)], 1, [pStale]⟩ EVENT_UPDATE
        { peripherals := some [pFresh] } =
      .ok (⟨[(EVERYTHING_KEY, 0)], 1, [pFresh]⟩, [(0, Payload.topology [pFresh])]) ∧
    ((lookupPeripheral ([pFresh].foldl updateStateWithPeripheral []) pStale.id).isSome ↔
      pStale.id ∈ [pFresh].map (fun p => p.id)) := by
  have h := (update_event_replaces_cache ⟨[(EVERYTHING_KEY, 0)], 1, [pStale]⟩
    { peripherals := some [pFresh] }).1 [pFresh] rfl
  refine ⟨?_, h.2 pStale.id⟩
  rw [h.1]; rfl

/-! ## C3 - connect timeout -/

theorem connectStep_preserves_timeout (br : Bridge) (avail : String → Bool)
    (uuid : String) (ms : Nat) (st : ConnectRun) (e : ConnectEvent)
    (h1 : st.settled = some (SettledVal.rejectedTimeout (timeoutMessage uuid ms)))
    (h2 : st.timerPending = false) :
    (connectStep br avail uuid ms st e).settled = st.settled ∧
    (connectStep br avail uuid ms st e).timerPending = false ∧
    (connectStep br avail uuid ms st e).nativeCalls = st.nativeCalls := by
  cases e with
  | timerFire => simp [connectStep, h2]
  | nativeResolve p => simp [connectStep, ConnectRun.settle, h1]
  | nativeReject e => simp [connectStep, ConnectRun.settle, h1]

theorem connectRun_after_timeout (br : Bridge) (avail : String → Bool)
    (uuid : String) (ms : Nat) (rest : List ConnectEvent) (st : ConnectRun)
    (h1 : st.settled = some (SettledVal.rejectedTimeout (timeoutMessage uuid ms)))
    (h2 : st.timerPending = false) :
    (rest.foldl (connectStep br avail uuid ms) st).settled = st.settled ∧
    (rest.foldl (connectStep br avail uuid ms) st).timerPending = false ∧
    (rest.foldl (connectStep br avail uuid ms) st).nativeCalls = st.nativeCalls := by
  induction rest generalizing st with
  | nil => exact ⟨rfl, h2, rfl⟩
  | cons e rest ih =>
    have hp := connectStep_preserves_timeout br avail uuid ms st e h1 h2
    have := ih (connectStep br avail uuid ms st e) (hp.1.trans h1) hp.2.1
    exact ⟨this.1.trans hp.1, this.2.1, this.2.2.trans hp.2.2⟩

theorem connectStep_settled_no_timer (br : Bridge) (avail : String → Bool)
    (uuid : String) (ms : Nat) (st : ConnectRun) (e : ConnectEvent)
    (h : st.settled.isSome → st.timerPending = false) :
    (connectStep br avail uuid ms st e).settled.isSome →
      (connectStep br avail uuid ms st e).timerPending = false := by
  cases e with
  | timerFire =>
    by_cases hp : st.timerPending = true
    · simp [connectStep, hp, ConnectRun.settle]
      cases hs : st.settled <;> simp
    · simp only [connectStep]
      rw [if_neg (by simp [Bool.not_eq_true] at hp; simp [hp])]
      exact h
  | nativeResolve p => simp [connectStep, ConnectRun.settle]; cases hs : st.settled <;> simp
  | nativeReject e => simp [connectStep, ConnectRun.settle]

/-- C3: connect timeout. If the timer expires while the native connect
is still pending (the run starts with `timerFire`), the promise settles
as a timeout-coded rejection, exactly one native disconnect for the
same peripheral id appears in the trace, and the timer ends up not
pending; moreover after any run whatsoever, a settled promise implies
the timer is no longer pending (cleared on every exit path). -/
theorem connect_timeout_rejects_and_cleans_up (br : Bridge) (avail : String → Bool)
    (uuid : String) (ms : Nat) (rest : List ConnectEvent)
    (hA : avail "disconnectPeripheralAsync" = true) (hU : isValidUUID uuid = true) :
    ((connectRun br avail uuid ms (ConnectEvent.timerFire :: rest)).settled =
        some (SettledVal.rejectedTimeout (timeoutMessage uuid ms)) ∧
      (connectRun br avail uuid ms (ConnectEvent.timerFire :: rest)).nativeCalls.count
        (NCall.disconnectPeripheral uuid) = 1 ∧
      (connectRun br avail uuid ms (ConnectEvent.timerFire :: rest)).timerPending = false) ∧
    (∀ evs : List ConnectEvent, (connectRun br avail uuid ms evs).settled.isSome →
      (connectRun br avail uuid ms evs).timerPending = false) := by
  constructor
  · have hfirst : connectStep br avail uuid ms (connectRunInit uuid) ConnectEvent.timerFire =
        ⟨false, some (SettledVal.rejectedTimeout (timeoutMessage uuid ms)),
          [NCall.connectPeripheral uuid, NCall.disconnectPeripheral uuid]⟩ := by
      simp [connectStep, connectRunInit, disconnectAsync, hA, hU, ConnectRun.settle]
    have h := connectRun_after_timeout br avail uuid ms rest
      (⟨false, some (SettledVal.rejectedTimeout (timeoutMessage uuid ms)),
        [NCall.connectPeripheral uuid, NCall.disconnectPeripheral uuid]⟩) rfl rfl
    rw [connectRun, List.foldl_cons, hfirst]
    refine ⟨h.1, ?_, h.2.1⟩
    rw [h.2.2]
    simp [List.count_cons]
  · intro evs
    rw [connectRun]
    induction evs using List.list_reverse_induction with
    | base => simp [connectRunInit]
    | ind evs e ih =>
      rw [List.foldl_append, List.foldl_cons, List.foldl_nil]
      exact connectStep_settled_no_timer br avail uuid ms _ e ih

/-- Witness for C3: a timer expiry with the native connect still pending
settles the run as a timeout rejection with exactly one disconnect. -/
theorem connect_timeout_rejects_and_cleans_up_witness :
    (connectRun failBridge (fun _ => true) "12345678-1234-1234-1234-123456789abc" 50
        [ConnectEvent.timerFire]).settled =
      some (SettledVal.rejectedTimeout
        (timeoutMessage "12345678-1234-1234-1234-123456789abc" 50)) ∧
    (connectRun failBridge (fun _ => true) "12345678-1234-1234-1234-123456789abc" 50
        [ConnectEvent.timerFire]).nativeCalls.count
      (NCall.disconnectPeripheral "12345678-1234-1234-1234-123456789abc") = 1 ∧
    (connectRun failBridge (fun _ => true) "12345678-1234-1234-1234-123456789abc" 50
        [ConnectEvent.timerFire]).timerPending = false :=
  (connect_timeout_rejects_and_cleans_up failBridge (fun _ => true)
    "12345678-1234-1234-1234-123456789abc" 50 [] rfl (by decide)).1

/-! ## C4 - availability checks on read/write operations -/

/-- C4 counterexample: with every capability unsupported,
`readCharacteristicAsync` still issues its native call (the source has
no `invariantAvailability` call there), refuting the claim that every
public operation checks availability before the native bridge. -/
theorem readCharacteristicAsync_no_availability_check :
    (readCharacteristicAsync failBridge (fun _ => false) "pp" "ss" "cc").1 =
      [NCall.readCharacteristic "pp" "ss" "cc"] := rfl

/-- C4 amended: `readRSSIAsync` (like most public operations) checks
availability first and fails with the unavailable-capability error with
no native call, but `readCharacteristicAsync`,
`writeCharacteristicAsync` and `readDescriptorAsync` issue their native
call even when every capability is unsupported. -/
theorem read_write_ops_skip_availability_check (br : Bridge)
    (p s c d : String) :
    ((readCharacteristicAsync br (fun _ => false) p s c).1 =
      [NCall.readCharacteristic p s c]) ∧
    ((writeCharacteristicAsync br (fun _ => false) p s c).1 =
      [NCall.writeCharacteristic p s c]) ∧
    ((readDescriptorAsync br (fun _ => false) p s c d).1 =
      [NCall.readDescriptor p s c d]) ∧
    (readRSSIAsync br (fun _ => false) p =
      ([], .error (unavailableMessage "readRSSIAsync"))) ∧
    (disconnectAsync br (fun _ => false) p =
      ([], .error (unavailableMessage "disconnectPeripheralAsync"))) ∧
    (∀ st : BTState, startScan (fun _ => false) none st =
      (st, [], .error (unavailableMessage "startScanningAsync"))) := by
  refine ⟨rfl, rfl, rfl, ?_, ?_, ?_⟩
  · simp [readRSSIAsync]
  · simp [disconnectAsync]
  · intro st; simp [startScan]

/-! ## C5 - discovery and disconnect events -/

/-- C5 counterexample: processing a `peripheral-discovered` event
carrying `pDiscovered` on an empty state leaves the state unchanged —
the record does not become retrievable from the mirror, refuting the
claim that these events merge the peripheral into the TopologyCache. -/
theorem discover_event_does_not_merge :
    onNativeEvent BTState.empty CENTRAL_DID_DISCOVER_PERIPHERAL
        { peripheral := some pDiscovered } = .ok (BTState.empty, []) ∧
    lookupPeripheral BTState.empty.peripherals pDiscovered.id = none := by
  constructor <;> rfl

/-- C5 amended: a `peripheral-discovered` or `peripheral-disconnected`
event multicasts the carried peripheral to the handlers registered
under that event kind and notifies the topology observers, but leaves
the state — in particular the peripheral cache — unchanged. -/
theorem discover_disconnect_events_multicast_only (st : BTState) (data : NativeEventData)
    (event : String)
    (h : event = CENTRAL_DID_DISCOVER_PERIPHERAL ∨
      event = CENTRAL_DID_DISCONNECT_PERIPHERAL) :
    onNativeEvent st event data =
      .ok (st, fireMultiEventHandlers st event (Payload.peripheral data.peripheral) ++
        firePeripheralObservers st) := by
  rcases h with h | h <;> subst h <;> rfl

/-- Witness for C5: with one handler registered under the discovery
kind, the event is delivered to it and the state is unchanged. -/
theorem discover_disconnect_events_multicast_only_witness :
    onNativeEvent ⟨[(CENTRAL_DID_DISCOVER_PERIPHERAL, 0)], 1, []⟩
        CENTRAL_DID_DISCOVER_PERIPHERAL { peripheral := some pDiscovered } =
      .ok (⟨[(CENTRAL_DID_DISCOVER_PERIPHERAL, 0)], 1, []⟩,
        [(0, Payload.peripheral (some pDiscovered))]) := by
  have h := discover_disconnect_events_multicast_only
    ⟨[(CENTRAL_DID_DISCOVER_PERIPHERAL, 0)], 1, []⟩ { peripheral := some pDiscovered }
    CENTRAL_DID_DISCOVER_PERIPHERAL (Or.inl rfl)
  rw [h]; rfl

/-! ## C6 - malformed UUIDs are rejected before any native call -/

/-- C6: with a malformed peripheral UUID, `connectAsync` (its
synchronous prefix), `disconnectAsync` and `readRSSIAsync` all fail
before any native call: the trace is empty, the state is returned
unchanged (no handler registered, cache untouched), and — whenever the
availability check passes — the failure is the malformed-UUID one. -/
theorem malformed_uuid_rejected_before_native_call (br : Bridge) (avail : String → Bool)
    (uuid : String) (d : Bool) (st : BTState)
    (h : isValidUUID uuid = false) :
    (∃ e, connectAsyncValidate avail uuid d st = (st, [], .error e)) ∧
    (∃ e, disconnectAsync br avail uuid = ([], .error e)) ∧
    (∃ e, readRSSIAsync br avail uuid = ([], .error e)) ∧
    (avail "connectPeripheralAsync" = true →
      connectAsyncValidate avail uuid d st = (st, [], .error (malformedUUIDMessage uuid))) ∧
    (avail "disconnectPeripheralAsync" = true →
      disconnectAsync br avail uuid = ([], .error (malformedUUIDMessage uuid))) ∧
    (avail "readRSSIAsync" = true →
      readRSSIAsync br avail uuid = ([], .error (malformedUUIDMessage uuid))) := by
  have hu : ¬(isValidUUID uuid = true) := by simp [h]
  refine ⟨?_, ?_, ?_, ?_, ?_, ?_⟩
  · by_cases ha : avail "connectPeripheralAsync" = true
    · exact ⟨malformedUUIDMessage uuid, by simp [connectAsyncValidate, ha, hu]⟩
    · exact ⟨unavailableMessage "connectPeripheralAsync", by simp [connectAsyncValidate, ha]⟩
  · by_cases ha : avail "disconnectPeripheralAsync" = true
    · exact ⟨malformedUUIDMessage uuid, by simp [disconnectAsync, ha, hu]⟩
    · exact ⟨unavailableMessage "disconnectPeripheralAsync", by simp [disconnectAsync, ha]⟩
  · by_cases ha : avail "readRSSIAsync" = true
    · exact ⟨malformedUUIDMessage uuid, by simp [readRSSIAsync, ha, hu]⟩
    · exact ⟨unavailableMessage "readRSSIAsync", by simp [readRSSIAsync, ha]⟩
  · intro ha; simp [connectAsyncValidate, ha, hu]
  · intro ha; simp [disconnectAsync, ha, hu]
  · intro ha; simp [readRSSIAsync, ha, hu]

/-- Witness for C6: the malformed id `not-a-uuid` is rejected by all
three operations with no native call and no state change. -/
theorem malformed_uuid_rejected_before_native_call_witness :
    connectAsyncValidate (fun _ => true) "not-a-uuid" true BTState.empty =
      (BTState.empty, [], .error (malformedUUIDMessage "not-a-uuid")) ∧
    disconnectAsync failBridge (fun _ => true) "not-a-uuid" =
      ([], .error (malformedUUIDMessage "not-a-uuid")) ∧
    readRSSIAsync failBridge (fun _ => true) "not-a-uuid" =
      ([], .error (malformedUUIDMessage "not-a-uuid")) := by
  have h := malformed_uuid_rejected_before_native_call failBridge (fun _ => true)
    "not-a-uuid" true BTState.empty (by decide)
  exact ⟨h.2.2.2.1 rfl, h.2.2.2.2.1 rfl, h.2.2.2.2.2 rfl⟩

/-! ## C7 - scan filter de-duplication -/

theorem jsSetDedup_go (l acc : List String) :
    l.foldl (fun acc x => if x ∈ acc then acc else acc ++ [x]) acc =
      acc ++ firstOccurrences (l.filter (fun y => ¬(y ∈ acc))) := by
  induction l generalizing acc with
  | nil => simp [firstOccurrences]
  | cons x xs ih =>
    by_cases hx : x ∈ acc
    · rw [List.foldl_cons, if_pos hx, ih, List.filter_cons]
      simp [hx]
    · rw [List.foldl_cons, if_neg hx, ih, List.filter_cons]
      simp only [hx, not_false_eq_true, decide_True, if_true]
      rw [show ∀ z zs, firstOccurrences (z :: zs) =
        z :: firstOccurrences (zs.filter (fun y => ¬(y = z))) from
        fun z zs => by rw [firstOccurrences.eq_def]]
      have hff : (xs.filter (fun y => ¬(y ∈ acc))).filter (fun y => ¬(y = x)) =
          xs.filter (fun y => ¬(y ∈ acc ++ [x])) := by
        rw [List.filter_filter]
        apply List.filter_congr
        intro a _
        simp [List.mem_append, not_or, and_comm]
      rw [hff]
      simp

theorem firstOccurrences_cons (x : String) (xs : List String) :
    firstOccurrences (x :: xs) = x :: firstOccurrences (xs.filter (fun y => ¬(y = x))) := by
  rw [firstOccurrences.eq_def]

theorem jsSetDedup_eq_firstOccurrences (l : List String) :
    jsSetDedup l = firstOccurrences l := by
  rw [jsSetDedup, jsSetDedup_go]
  simp

theorem firstOccurrences_mem : ∀ (l : List String) (a : String),
    a ∈ firstOccurrences l ↔ a ∈ l
  | [], a => by rw [firstOccurrences.eq_def]
  | x :: xs, a => by
    rw [firstOccurrences_cons]
    have ih := firstOccurrences_mem (xs.filter (fun y => ¬(y = x))) a
    simp only [List.mem_cons, ih, List.mem_filter, decide_eq_true_eq]
    by_cases hax : a = x <;> simp [hax]
termination_by l _ => l.length
decreasing_by
  simp only [List.length_cons]
  exact Nat.lt_succ_of_le (List.length_filter_le _ _)

theorem firstOccurrences_nodup : ∀ l : List String, (firstOccurrences l).Nodup
  | [] => by rw [firstOccurrences.eq_def]; exact List.nodup_nil
  | x :: xs => by
    rw [firstOccurrences_cons]
    refine List.nodup_cons.mpr ⟨?_, firstOccurrences_nodup (xs.filter (fun y => ¬(y = x)))⟩
    intro hmem
    rw [firstOccurrences_mem] at hmem
    simp at hmem
termination_by l => l.length
decreasing_by
  simp only [List.length_cons]
  exact Nat.lt_succ_of_le (List.length_filter_le _ _)

/-- C7: the UUID filter passed to the native start-scan is the JS `Set`
de-duplication of `serviceUUIDsToQuery`: it equals the subsequence of
first occurrences, has no duplicates, contains exactly the UUIDs of the
input (each once), and is empty when `serviceUUIDsToQuery` is absent. -/
theorem startScan_filter_dedup (avail : String → Bool) (h : avail "startScanningAsync" = true)
    (q : Option (List String)) (st : BTState) :
    ((startScan avail q st).2.1 = [NCall.startScanning (jsSetDedup (q.getD []))]) ∧
    (jsSetDedup (q.getD []) = firstOccurrences (q.getD [])) ∧
    ((jsSetDedup (q.getD [])).Nodup) ∧
    (∀ a, a ∈ jsSetDedup (q.getD []) ↔ a ∈ q.getD []) ∧
    (∀ a, a ∈ q.getD [] → (jsSetDedup (q.getD [])).count a = 1) ∧
    (q = none → (startScan avail q st).2.1 = [NCall.startScanning []]) := by
  have hnodup : (jsSetDedup (q.getD [])).Nodup := by
    rw [jsSetDedup_eq_firstOccurrences]; exact firstOccurrences_nodup _
  have hmem : ∀ a, a ∈ jsSetDedup (q.getD []) ↔ a ∈ q.getD [] := by
    intro a; rw [jsSetDedup_eq_firstOccurrences]; exact firstOccurrences_mem _ a
  refine ⟨?_, jsSetDedup_eq_firstOccurrences _, hnodup, hmem, ?_, ?_⟩
  · simp [startScan, h]
  · intro a ha
    exact List.count_eq_one_of_mem hnodup ((hmem a).mpr ha)
  · intro hq
    subst hq
    simp [startScan, h, jsSetDedup]

/-- Witness for C7: a duplicated query list is de-duplicated in
first-occurrence order, and an absent one gives the empty filter. -/
theorem startScan_filter_dedup_witness :
    ((startScan (fun _ => true) (some ["uuid-aa", "uuid-bb", "uuid-aa"]) BTState.empty).2.1 =
      [NCall.startScanning ["uuid-aa", "uuid-bb"]]) ∧
    ((startScan (fun _ => true) none BTState.empty).2.1 = [NCall.startScanning []]) := by
  have h1 := (startScan_filter_dedup (fun _ => true) rfl
    (some ["uuid-aa", "uuid-bb", "uuid-aa"]) BTState.empty).1
  have h2 := (startScan_filter_dedup (fun _ => true) rfl none BTState.empty).2.2.2.2.2 rfl
  refine ⟨?_, h2⟩
  rw [h1]
  rfl

/-! ## C8 - unrecognized events are fatal -/

/-- C8: the push-event entry point fails on every event kind outside the
recognized set, with no state change and no handler dispatch (the error
return carries neither). -/
theorem unrecognized_event_is_fatal (st : BTState) (data : NativeEventData) (event : String)
    (h : ¬(event ∈ recognizedEventKinds)) :
    onNativeEvent st event data = .error ("EXBluetooth: Unhandled event: " ++ event) := by
  simp only [recognizedEventKinds, List.mem_cons, List.not_mem_nil, or_false, not_or] at h
  obtain ⟨h1, h2, h3, h4, h5, h6, h7⟩ := h
  simp [onNativeEvent, h1, h2, h3, h4, h5, h6, h7]

/-- Witness for C8: an arbitrary unknown event kind is fatal. -/
theorem unrecognized_event_is_fatal_witness :
    onNativeEvent BTState.empty "peripheralDidModifyServices" {} =
      .error ("EXBluetooth: Unhandled event: " ++ "peripheralDidModifyServices") :=
  unrecognized_event_is_fatal BTState.empty {} "peripheralDidModifyServices" (by decide)

/-! ## C9 - retrieve events are recognized no-ops -/

/-- C9: the two retrieve-peripherals event kinds are recognized no-ops:
the state is returned unchanged, no handler is invoked, no error. -/
theorem retrieve_events_are_noops (st : BTState) (data : NativeEventData) (event : String)
    (h : event = CENTRAL_DID_RETRIEVE_PERIPHERALS ∨
      event = CENTRAL_DID_RETRIEVE_CONNECTED_PERIPHERALS) :
    onNativeEvent st event data = .ok (st, []) := by
  rcases h with h | h <;> subst h <;> rfl

/-- Witness for C9: a retrieve event on the empty state is a no-op. -/
theorem retrieve_events_are_noops_witness :
    onNativeEvent BTState.empty CENTRAL_DID_RETRIEVE_PERIPHERALS {} = .ok (BTState.empty, []) :=
  retrieve_events_are_noops BTState.empty {} CENTRAL_DID_RETRIEVE_PERIPHERALS (Or.inl rfl)

/-! ## C10 - scan cancellation clears the whole discovery key -/

theorem getHandlers_reset_self (st : BTState) (key : String) :
    getHandlersForKey (resetHandlersForKey key st) key = [] := by
  simp only [getHandlersForKey, resetHandlersForKey, List.filter_filter]
  rw [List.map_eq_nil_iff, List.filter_eq_nil_iff]
  intro a _
  by_cases h : a.1 = key <;> simp [h]

/-- C10: the cancel closure of any `startScan` (and `stopScanAsync`
itself) removes every handler registered under the discovery event key
— whatever state the registry is in, including handlers of other active
scans — and issues exactly the native stop-scan. -/
theorem cancelScan_clears_discovery_handlers (avail : String → Bool)
    (h : avail "stopScanningAsync" = true) (tag : Nat) (st : BTState) :
    (getHandlersForKey (cancelScanClosure avail tag st).1 CENTRAL_DID_DISCOVER_PERIPHERAL = [] ∧
      (cancelScanClosure avail tag st).2.1 = [NCall.stopScanning] ∧
      (cancelScanClosure avail tag st).2.2 = .ok ()) ∧
    (getHandlersForKey (stopScanAsync avail st).1 CENTRAL_DID_DISCOVER_PERIPHERAL = [] ∧
      (stopScanAsync avail st).2.1 = [NCall.stopScanning]) := by
  constructor
  · refine ⟨?_, ?_, ?_⟩ <;> simp [cancelScanClosure, stopScanAsync, h, getHandlers_reset_self]
  · exact ⟨by simp [stopScanAsync, h, getHandlers_reset_self], by simp [stopScanAsync, h]⟩

/-- Witness for C10: with two scans' handlers registered under the
discovery key, the first scan's cancel closure removes both. -/
theorem cancelScan_clears_discovery_handlers_witness :
    getHandlersForKey
      (cancelScanClosure (fun _ => true) 0
        ⟨[(CENTRAL_DID_DISCOVER_PERIPHERAL, 0), (CENTRAL_DID_DISCOVER_PERIPHERAL, 1)], 2, []⟩).1
      CENTRAL_DID_DISCOVER_PERIPHERAL = [] ∧
    (cancelScanClosure (fun _ => true) 0
      ⟨[(CENTRAL_DID_DISCOVER_PERIPHERAL, 0), (CENTRAL_DID_DISCOVER_PERIPHERAL, 1)], 2, []⟩).2.1 =
      [NCall.stopScanning] := by
  have h := (cancelScan_clears_discovery_handlers (fun _ => true) rfl 0
    ⟨[(CENTRAL_DID_DISCOVER_PERIPHERAL, 0), (CENTRAL_DID_DISCOVER_PERIPHERAL, 1)], 2, []⟩).1
  exact ⟨h.1, h.2.1⟩

end ExpoBT
